import Mathlib

/-!
# VeridiFi green-treasury pipeline: a shallow embedding

This file embeds the decision/orchestration core of the VeridiFi repository
(agents/green_treasury_swarm.py, agents/contract_interface.py,
agents/dashboard_server.py, agents/plasma_payout.py, agents/config.py) in
Lean 4 and proves properties of the embedded functions.

Modelling conventions:
* Python `float` prices are modelled as rationals; the comparisons used by
  the code are order comparisons that rationals reproduce exactly for the
  decimal literals involved.
* A contract call that may raise is modelled as `Except Unit _`; `.error ()`
  is the raised case.
* Python dicts returned by the agents are modelled as structures whose
  fields are the dict keys actually read by the callers; a key holding
  `None` is an `Option` field holding `none`.
* Log-string interpolation of numeric values is kept only where a claim
  inspects the text; dollar-amount formatting (Python `f"{x:.4f}"`) is not
  reproduced, and one contraction of the source text is spelled out.
-/

namespace VeridiFi

/-- `ORACLE_TIMEOUT_SECONDS = 180` (green_treasury_swarm.py line 24). -/
def ORACLE_TIMEOUT_SECONDS : ℤ := 180

/-- `XRP_TARGET_PRICE = 1.10` USD (green_treasury_swarm.py line 25). -/
def XRP_TARGET_PRICE : ℚ := 11 / 10

/-- `GREEN_THRESHOLD = 50` gCO2/kWh (green_treasury_swarm.py line 26 and
dashboard_server.py line 51; the same literal `50` is hardcoded in
contract_interface.check_fdc_verification). -/
def GREEN_THRESHOLD : ℕ := 50

/-- `AMBER_THRESHOLD = 150` gCO2/kWh (green_treasury_swarm.py line 27). -/
def AMBER_THRESHOLD : ℕ := 150

/-- `GREEN_ENERGY_THRESHOLD` default `100` (config.py line 21, the value of
`int(os.getenv("GREEN_ENERGY_THRESHOLD", "100"))` with no override). -/
def GREEN_ENERGY_THRESHOLD : ℕ := 100

/-- The VeridiFiCore contract as seen by `ContractInterface`: the three view
functions it calls, each of which can raise. -/
structure VeriDiFiCoreFeed where
  latestRoundId : Except Unit ℕ
  getCarbonIntensity : ℕ → Except Unit ℕ
  getLatestCarbonIntensity : Except Unit ℕ

/-- The dict returned by `ContractInterface.check_fdc_verification`
(contract_interface.py lines 251-317).  `is_low_carbon` is absent from the
unverified dicts; every caller reads it with `.get("is_low_carbon", False)`,
so it is modelled as a `Bool` defaulting to `false`. -/
structure FdcVerification where
  verified : Bool
  intensity : Option ℕ
  voting_round_id : Option ℕ
  is_low_carbon : Bool := false
  status : Option String := none
  message : String
deriving DecidableEq, Repr

/-- `ContractInterface.check_fdc_verification` (contract_interface.py lines
251-317).  `core = none` models an unconfigured `veridiFi_core`; a raised
`latestRoundId` call returns `None` (lines 266-270); a raised intensity call
falls back to `getLatestCarbonIntensity`, and a second raise leaves the
intensity at `0` (lines 282-291). -/
def check_fdc_verification (core : Option VeriDiFiCoreFeed) : Option FdcVerification :=
  match core with
  | none => none
  | some feed =>
    match feed.latestRoundId with
    | .error _ => none
    | .ok latest_round_id =>
      if latest_round_id = 0 then
        some { verified := false, intensity := none, voting_round_id := none,
               message := "No FDC-verified proof found. Waiting for Flare nodes to reach consensus." }
      else
        let intensity_wei :=
          match feed.getCarbonIntensity latest_round_id with
          | .ok v => v
          | .error _ =>
            match feed.getLatestCarbonIntensity with
            | .ok v => v
            | .error _ => 0
        if intensity_wei = 0 then
          some { verified := false, intensity := none, voting_round_id := some latest_round_id,
                 message := "Voting Round ID found but no carbon intensity data." }
        else
          some { verified := true, intensity := some intensity_wei,
                 voting_round_id := some latest_round_id,
                 is_low_carbon := decide (intensity_wei < 50),
                 status := some (if intensity_wei < 50 then "GREEN_VERIFIED" else "VERIFIED"),
                 message := "FDC proof verified." }

/-- The verification statuses of the spec data model.  `GREEN_VERIFIED` and
`VERIFIED` are the `status` strings of the verified `check_fdc_verification`
dicts (the agents log them as `STATE_GREEN_VERIFIED`/`VERIFIED`);
`UNVERIFIED` is the `verified: False` dict (mapped to the string
`"UNVERIFIED"` by `auditor_agent` and by the dashboard update loop); `ERROR`
is the `None` return, which `environmental_auditor_agent` routes to its
error-halt branch. -/
inductive VerificationStatus where
  | UNVERIFIED
  | VERIFIED
  | GREEN_VERIFIED
  | ERROR
deriving DecidableEq, Repr

/-- The verification gate: classify one attestation read, following
`check_fdc_verification` and the status mapping its callers apply
(contract_interface.py lines 251-317; green_treasury_swarm.py lines 213-255
and 288-347; dashboard_server.py lines 250-257). -/
def verificationGate (core : Option VeriDiFiCoreFeed) : VerificationStatus :=
  match check_fdc_verification core with
  | none => .ERROR
  | some v =>
    if v.verified then
      if v.is_low_carbon then .GREEN_VERIFIED else .VERIFIED
    else .UNVERIFIED

/-- The dict returned by `ContractInterface.get_carbon_intensity`
(contract_interface.py lines 211-249). -/
structure CarbonIntensityInfo where
  intensity : ℕ
  is_green : Bool
  is_fdc_verified : Bool
  latest_round_id : ℕ
  threshold : ℕ
  status : String
  verification_status : String
deriving DecidableEq, Repr

/-- `ContractInterface.get_carbon_intensity` (contract_interface.py lines
211-249): reads the latest intensity, treats a positive value as verified,
and compares against the configurable `GREEN_ENERGY_THRESHOLD` (passed here
as `greenEnergyThreshold`).  A raised `latestRoundId` call is swallowed and
leaves the round id at `0` (lines 230-234). -/
def get_carbon_intensity (greenEnergyThreshold : ℕ) (core : Option VeriDiFiCoreFeed) :
    Option CarbonIntensityInfo :=
  match core with
  | none => none
  | some feed =>
    match feed.getLatestCarbonIntensity with
    | .error _ => none
    | .ok intensity =>
      let is_fdc_verified : Bool := decide (0 < intensity)
      let latest_round_id := match feed.latestRoundId with | .ok r => r | .error _ => 0
      let is_green : Bool := if is_fdc_verified then decide (intensity < greenEnergyThreshold) else false
      some { intensity := intensity,
             is_green := is_green,
             is_fdc_verified := is_fdc_verified,
             latest_round_id := latest_round_id,
             threshold := greenEnergyThreshold,
             status := if is_green then "Green" else "Not Green",
             verification_status := if is_fdc_verified then "FDC_VERIFIED" else "UNVERIFIED" }

/-- A feed whose round and intensity reads all succeed with the given
values: `latestRoundId = r` and every intensity read returns `i`. -/
def feedRound (r i : ℕ) : VeriDiFiCoreFeed :=
  { latestRoundId := .ok r,
    getCarbonIntensity := fun _ => .ok i,
    getLatestCarbonIntensity := .ok i }

/-- A feed whose every read raises. -/
def feedDown : VeriDiFiCoreFeed :=
  { latestRoundId := .error (),
    getCarbonIntensity := fun _ => .error (),
    getLatestCarbonIntensity := .error () }

/-- Does `p` occur at the head of the character list? -/
def charsHeadMatch : List Char → List Char → Bool
  | [], _ => true
  | _ :: _, [] => false
  | p :: ps, c :: cs => (p == c) && charsHeadMatch ps cs

/-- Does `pat` occur anywhere in the character list? -/
def charsContain (pat : List Char) : List Char → Bool
  | [] => pat.isEmpty
  | c :: cs => charsHeadMatch pat (c :: cs) || charsContain pat cs

/-- Substring containment, the meaning of the Python `pat in s` test used to
state "the reason mentions ...". -/
def containsSub (s pat : String) : Bool :=
  charsContain pat.toList s.toList

/-- The dict returned by `ContractInterface.get_latest_prices`, already
converted from wei (contract_interface.py lines 150-209). -/
structure PriceData where
  btc_price : ℚ
  xrp_price : ℚ
  btc_timestamp : ℕ
  xrp_timestamp : ℕ
deriving DecidableEq, Repr

/-- The `market_report` dict built by `oracle_scout_agent`: either the VALID
report (keys read downstream: `xrp_usd` and the freshness ages) or the
`{"error": "ORACLE_TIMEOUT", ...}` dict (green_treasury_swarm.py lines
158-191). -/
inductive MarketReport where
  | valid (btc_usd xrp_usd : ℚ) (btc_freshness_seconds xrp_freshness_seconds : ℤ)
  | oracleTimeout (btc_age_seconds xrp_age_seconds : ℤ)
deriving DecidableEq, Repr

/-- `market_report.get("error") == "ORACLE_TIMEOUT"` as tested by
`treasury_manager_agent` (green_treasury_swarm.py line 492). -/
def isOracleTimeoutReport : Option MarketReport → Bool
  | some (.oracleTimeout _ _) => true
  | _ => false

/-- `market_report.get("xrp_usd", 0)` (green_treasury_swarm.py line 514). -/
def marketXrpUsd : MarketReport → ℚ
  | .valid _ x _ _ => x
  | .oracleTimeout _ _ => 0

/-- `oracle_scout_agent` (green_treasury_swarm.py lines 127-200), reduced to
the `market_report` it stores: `none` models both a failed
`get_latest_prices` call and an exception; otherwise the freshness of both
prices is checked against `ORACLE_TIMEOUT_SECONDS`. -/
def oracle_scout_agent (priceData : Option PriceData) (now : ℕ) : Option MarketReport :=
  match priceData with
  | none => none
  | some pd =>
    let btc_age : ℤ := (now : ℤ) - pd.btc_timestamp
    let xrp_age : ℤ := (now : ℤ) - pd.xrp_timestamp
    if btc_age > ORACLE_TIMEOUT_SECONDS ∨ xrp_age > ORACLE_TIMEOUT_SECONDS then
      some (.oracleTimeout btc_age xrp_age)
    else
      some (.valid pd.btc_price pd.xrp_price btc_age xrp_age)

/-- `scout_agent` (green_treasury_swarm.py lines 69-124), reduced to the
`ftso_price` it stores: `none` on feed failure, on exception, or when the
XRP price is older than `ORACLE_TIMEOUT_SECONDS`. -/
def scout_agent (priceData : Option PriceData) (now : ℕ) : Option ℚ :=
  match priceData with
  | none => none
  | some pd =>
    let xrp_age : ℤ := (now : ℤ) - pd.xrp_timestamp
    if xrp_age > ORACLE_TIMEOUT_SECONDS then none else some pd.xrp_price

/-- The `carbon_audit` dict fields read downstream (green_treasury_swarm.py
lines 331-347 and 364-380). -/
structure CarbonAudit where
  intensity : Option ℕ
  status : String
  is_green : Bool
  is_amber : Bool
  is_red : Bool
  is_fdc_verified : Bool
  voting_round_id : Option ℕ
  attestation_valid : Bool
deriving DecidableEq, Repr

/-- The error-shaped `carbon_audit` built by
`environmental_auditor_agent` when the attestation is missing or invalid
(green_treasury_swarm.py lines 331-347 and 400-415). -/
def errorCarbonAudit (vr : Option ℕ) : CarbonAudit :=
  { intensity := none, status := "Error", is_green := false, is_amber := false,
    is_red := false, is_fdc_verified := false, voting_round_id := vr,
    attestation_valid := false }

/-- The state fields written by `environmental_auditor_agent`. -/
structure AuditorOut where
  carbon_audit : CarbonAudit
  fdc_verification_status : String
  should_halt : Bool
deriving DecidableEq, Repr

/-- `environmental_auditor_agent` (green_treasury_swarm.py lines 267-415).
The unverified and `None` results of `check_fdc_verification`, and any
exception, all take the early error return (lines 320-347): status
`ERROR_HALT` with `should_halt` set.  A verified result is classified with
the `is_low_carbon and intensity < 50` test (line 308) and the
Green/Amber/Red ladder (lines 349-361); a verified dict with no intensity
cannot be produced by `check_fdc_verification` and would raise in Python,
so it is mapped to the same exception route. -/
def environmental_auditor_agent (core : Option VeriDiFiCoreFeed) : AuditorOut :=
  match check_fdc_verification core with
  | none =>
    { carbon_audit := errorCarbonAudit none,
      fdc_verification_status := "ERROR_HALT", should_halt := true }
  | some v =>
    if v.verified then
      match v.intensity with
      | some i =>
        let verification_status :=
          if v.is_low_carbon ∧ i < 50 then "STATE_GREEN_VERIFIED" else "VERIFIED"
        let status :=
          if i < GREEN_THRESHOLD then "Green"
          else if i < AMBER_THRESHOLD then "Amber"
          else "Red"
        { carbon_audit :=
            { intensity := some i, status := status,
              is_green := status == "Green", is_amber := status == "Amber",
              is_red := status == "Red", is_fdc_verified := true,
              voting_round_id := v.voting_round_id, attestation_valid := true },
          fdc_verification_status := verification_status, should_halt := false }
      | none =>
        { carbon_audit := errorCarbonAudit v.voting_round_id,
          fdc_verification_status := "ERROR_HALT", should_halt := true }
    else
      { carbon_audit := errorCarbonAudit v.voting_round_id,
        fdc_verification_status := "ERROR_HALT", should_halt := true }

/-- The state fields written by `auditor_agent` (green_treasury_swarm.py
lines 203-264). -/
structure AuditorSimpleOut where
  fdc_proof_valid : Bool
  fdc_verification_status : String
deriving DecidableEq, Repr

/-- `auditor_agent` (green_treasury_swarm.py lines 203-264): a falsy or
unverified `check_fdc_verification` result yields `UNVERIFIED`; a verified
one sets `fdc_proof_valid` to `is_low_carbon and intensity < 50` (line 232).
`check_fdc_verification` always attaches an intensity to verified dicts, so
the `getD 0` default is never exercised. -/
def auditor_agent (core : Option VeriDiFiCoreFeed) : AuditorSimpleOut :=
  match check_fdc_verification core with
  | none => { fdc_proof_valid := false, fdc_verification_status := "UNVERIFIED" }
  | some v =>
    if v.verified then
      let fdc_proof_valid : Bool := v.is_low_carbon && decide (v.intensity.getD 0 < 50)
      { fdc_proof_valid := fdc_proof_valid,
        fdc_verification_status :=
          if fdc_proof_valid then "STATE_GREEN_VERIFIED" else "VERIFIED" }
    else
      { fdc_proof_valid := false, fdc_verification_status := "UNVERIFIED" }

/-- The `treasury_decision`/`decision_reason` pair written by the decision
agents. -/
structure Decision where
  decision : String
  reason : String
deriving DecidableEq, Repr

/-- `.get("intensity", 999)` formatting: the audit dicts always carry the
key, so the stored value (an int or `None`) is what gets printed. -/
def fmtIntensity : Option ℕ → String
  | some i => toString i
  | none => "None"

/-- `treasury_manager_agent` (green_treasury_swarm.py lines 476-580), the
supervisor decision engine, and identically-structured
`make_treasury_decision` (dashboard_server.py lines 411-493).  Rule order as
in the source: oracle-timeout check, missing-data check, the
`STATE_GREEN_VERIFIED` gate, the Red gate, the buy gate, default WAIT.
Numeric price formatting inside reasons is elided; the contraction in the
unverified reason is spelled out. -/
def treasury_manager_agent (market_report : Option MarketReport)
    (carbon_audit : Option CarbonAudit) (fdc_status : Option String) : Decision :=
  if isOracleTimeoutReport market_report then
    { decision := "HALT_ACTIVITY",
      reason := "Oracle Timeout: FTSO data is stale (>3 minutes). Trading halted for safety." }
  else
    match market_report, carbon_audit with
    | some mr, some ca =>
      let xrp_price := marketXrpUsd mr
      let intensityStr := fmtIntensity ca.intensity
      if ¬ ca.is_fdc_verified ∨ fdc_status ≠ some "STATE_GREEN_VERIFIED" then
        { decision := "WAIT",
          reason :=
            if ¬ ca.is_fdc_verified then
              "FDC proof not verified. Waiting for Flare nodes to reach consensus. AI does not trust unverified data."
            else if fdc_status = some "VERIFIED" then
              s!"FDC verified but carbon is not low ({intensityStr} gCO2/kWh). Waiting for Green energy."
            else
              "FDC verification pending. Waiting for consensus." }
      else if ca.is_red then
        { decision := "HALT_ACTIVITY",
          reason := s!"Energy is Red ({intensityStr} gCO2/kWh > 150). Halting activity to save on carbon impact fees." }
      else if ca.is_green ∧ fdc_status = some "STATE_GREEN_VERIFIED" ∧ xrp_price < XRP_TARGET_PRICE then
        { decision := "EXECUTE_BUY",
          reason := s!"STATE_GREEN_VERIFIED: FDC consensus confirmed low carbon ({intensityStr} gCO2/kWh < 50) AND XRP Price is below target. Executing buy signal." }
      else
        { decision := "WAIT",
          reason :=
            if ¬ ca.is_green then
              s!"Energy is not Green ({intensityStr} gCO2/kWh). Waiting for Green energy."
            else if XRP_TARGET_PRICE ≤ xrp_price then
              "XRP Price is above target. Waiting for better entry."
            else
              "Conditions not met. Waiting." }
    | _, _ =>
      { decision := "HALT_ACTIVITY",
        reason := "Missing required data: Market Report or Carbon Audit unavailable" }

/-- `manager_agent` (green_treasury_swarm.py lines 418-473), the decision
node of the default VeridiFi swarm graph.  The state key `fdc_proof_valid`
is always present (it is set by the initial state and by `auditor_agent`),
so the `.get` default never fires and the input is the stored
`Option Bool`. -/
def manager_agent (ftso_price : Option ℚ) (fdc_proof_valid : Option Bool) : Decision :=
  match ftso_price with
  | none => { decision := "WAIT", reason := "No price data available" }
  | some p =>
    match fdc_proof_valid with
    | none => { decision := "WAIT", reason := "FDC proof status unknown" }
    | some fpv =>
      let price_below_target : Bool := decide (p < XRP_TARGET_PRICE)
      let carbon_below_threshold : Bool := fpv
      if price_below_target && carbon_below_threshold then
        { decision := "EXECUTE_BUY",
          reason := "Price below target AND FDC proof valid" }
      else
        { decision := "WAIT",
          reason :=
            if ¬ price_below_target then "Price at or above target"
            else if ¬ carbon_below_threshold then "FDC proof not valid (carbon >= 50 gCO2/kWh)"
            else "Conditions not met" }

/-- `error_halt_agent` (green_treasury_swarm.py lines 812-836), reduced to
the decision it writes. -/
def error_halt_agent : Decision :=
  { decision := "ERROR_HALT",
    reason := "FDC attestation verification failed - trading halted for safety" }

/-- `should_route_to_error_halt` (green_treasury_swarm.py lines 869-878). -/
def should_route_to_error_halt (a : AuditorOut) : Bool :=
  a.should_halt || a.fdc_verification_status == "ERROR_HALT"

/-- One cycle of the legacy green-treasury graph
(`create_green_treasury_graph`, green_treasury_swarm.py lines 924-972),
reduced to the decision it produces: scout, then auditor, then either the
error-halt node or the treasury manager. -/
def green_treasury_decision (priceData : Option PriceData) (now : ℕ)
    (core : Option VeriDiFiCoreFeed) : Decision :=
  let mr := oracle_scout_agent priceData now
  let audit := environmental_auditor_agent core
  if should_route_to_error_halt audit then error_halt_agent
  else treasury_manager_agent mr (some audit.carbon_audit) (some audit.fdc_verification_status)

/-- One cycle of the default VeridiFi swarm graph
(`create_veridifi_swarm_graph`, green_treasury_swarm.py lines 881-921),
reduced to the decision its `manager` node produces: scout, then auditor,
then manager. -/
def veridifi_decision (priceData : Option PriceData) (now : ℕ)
    (core : Option VeriDiFiCoreFeed) : Decision :=
  manager_agent (scout_agent priceData now) (some (auditor_agent core).fdc_proof_valid)

/-- The outcome of a `subprocess.run` of the settlement script: it returned,
it hit the 120s timeout (`subprocess.TimeoutExpired`), or another exception
was raised. -/
inductive SubprocessOutcome where
  | completed (returncode : ℤ) (stdout stderr : String)
  | timedOut
  | raised (msg : String)
deriving DecidableEq, Repr

/-- The settlement-result dicts (`payout_status` / `settlement_status`),
with every key any of the three dispatchers writes; keys a given dispatcher
does not write are `none`. -/
structure SettlementResult where
  executed : Bool
  transaction_hash : Option String := none
  amount_usdt : Option ℚ := none
  recipient : Option String := none
  gas_fee : Option ℚ := none
  fee : Option ℚ := none
  payment_type : Option String := none
  status : Option String := none
  note : Option String := none
  error : Option String := none
  reason : Option String := none
deriving DecidableEq, Repr

/-- One step of the tx-hash scan of `settlement_agent` (green_treasury_swarm.py
lines 613-617): a line containing `Transaction hash:` overwrites the hash
with its trimmed tail. -/
def settleTxLine (acc : Option String) (line : String) : Option String :=
  if 2 ≤ (line.splitOn "Transaction hash:").length then
    some (((line.splitOn "Transaction hash:").getLastD "").trim)
  else acc

/-- The tx-hash scan over the script stdout (green_treasury_swarm.py lines
613-617). -/
def parseSettlementTxHash (out : String) : Option String :=
  List.foldl settleTxLine none (out.splitOn "\n")

/-- `settlement_agent` (green_treasury_swarm.py lines 583-682), the
settlement node of the default VeridiFi graph, as a function of the
subprocess outcome: zero exit builds a COMPLETED result, any failure path
(nonzero exit, timeout, exception) builds an `executed: False` FAILED
result — returned, never re-raised. -/
def settlement_agent (recipient : String) (outcome : SubprocessOutcome) : SettlementResult :=
  match outcome with
  | .completed rc out err =>
    if rc = 0 then
      { executed := true, transaction_hash := parseSettlementTxHash out,
        amount_usdt := some 1, recipient := some recipient,
        gas_fee := some 0, status := some "COMPLETED" }
    else
      { executed := false, error := some (if err = "" then out else err),
        status := some "FAILED" }
  | .timedOut =>
    { executed := false, error := some "Plasma payout timed out", status := some "FAILED" }
  | .raised msg =>
    { executed := false, error := some ("Exception in Plasma payout: " ++ msg),
      status := some "FAILED" }

/-- The mock transaction hash of `_mock_plasma_payment`
(green_treasury_swarm.py line 790): the hex bytes 0 to 31. -/
def mockTxHash : String :=
  "0x000102030405060708090a0b0c0d0e0f101112131415161718191a1b1c1d1e1f"

/-- `_mock_plasma_payment` (green_treasury_swarm.py lines 774-809): the
fail-open fallback, an `executed: True` result marked as a mock by its
`payment_type` and `note`. -/
def mock_plasma_payment (recipient : String) : SettlementResult :=
  { executed := true, transaction_hash := some mockTxHash, amount_usdt := some 1,
    recipient := some recipient, fee := some 0,
    payment_type := some "Green Reward (Mock)", status := some "COMPLETED",
    note := some "Mock payment - Configure Plasma for real payouts" }

/-- The result dict of `plasma_payout.send_plasma_reward`. -/
structure PlasmaSendResult where
  success : Bool
  transaction_hash : Option String := none
  error : Option String := none
deriving DecidableEq, Repr

/-- An invocation of `send_plasma_reward` as seen by `settlement_agent_old`:
either it returned a result dict or it raised. -/
inductive SendInvocation where
  | result (r : PlasmaSendResult)
  | raised (msg : String)
deriving DecidableEq, Repr

/-- `settlement_agent_old` (green_treasury_swarm.py lines 685-771), driven
by the decision string, plasma module availability, `check_plasma_setup`,
and the `send_plasma_reward` invocation: every failure mode after an
EXECUTE_BUY signal falls back to `_mock_plasma_payment`. -/
def settlement_agent_old (decision : String) (moduleAvailable setupConfigured : Bool)
    (recipient : String) (send : SendInvocation) : SettlementResult :=
  if decision ≠ "EXECUTE_BUY" then
    { executed := false,
      reason := some ("Decision was " ++ decision ++ ", not EXECUTE_BUY") }
  else if ¬ moduleAvailable then mock_plasma_payment recipient
  else if ¬ setupConfigured then mock_plasma_payment recipient
  else
    match send with
    | .result r =>
      if r.success then
        { executed := true,
          transaction_hash := some (r.transaction_hash.getD "Pending"),
          amount_usdt := some 1, recipient := some recipient, fee := some 0,
          payment_type := some "Green Reward (Plasma)", status := some "COMPLETED" }
      else mock_plasma_payment recipient
    | .raised _ => mock_plasma_payment recipient

/-- Is `c` one of `[a-fA-F0-9]`? -/
def isHexChar (c : Char) : Bool :=
  c.isDigit || ( 'a' ≤ c && c ≤ 'f') || ( 'A' ≤ c && c ≤ 'F')

/-- Python `s.startswith("0x")`, over the character list. -/
def startsWith0x (s : String) : Bool :=
  charsHeadMatch "0x".toList s.toList

/-- Python `s.strip()`: drop whitespace from both ends. -/
def pyStrip (s : String) : String :=
  ⟨((s.toList.dropWhile Char.isWhitespace).reverse.dropWhile Char.isWhitespace).reverse⟩

/-- The documented address regular expression `^0x[a-fA-F0-9]{40}$`
(dashboard_server.py lines 552 and 788), rendered directly: the literal
`0x`, then exactly 40 hexadecimal characters. -/
def matchesEthAddressRe (s : String) : Bool :=
  match s.toList with
  | '0' :: 'x' :: rest => rest.length == 40 && rest.all isHexChar
  | _ => false

/-- The HTTP outcome of `save_user_wallet`: a 400 validation error or the
saved address. -/
inductive WalletResponse where
  | badRequest (error : String)
  | saved (wallet_address : String)
deriving DecidableEq, Repr

/-- `save_user_wallet` (dashboard_server.py lines 775-810): trims the posted
address, rejects the empty string, then rejects anything not matching the
full address regular expression. -/
def save_user_wallet (wallet_address : String) : WalletResponse :=
  let w := pyStrip wallet_address
  if w = "" then .badRequest "Wallet address is required"
  else if ¬ matchesEthAddressRe w then .badRequest "Invalid Ethereum address format"
  else .saved w

/-- The environment `send_plasma_reward` consults: script presence, the
`GREEN_REWARD_CONTRACT_ADDRESS` variable, and the subprocess outcome were it
to run. -/
structure PlasmaEnv where
  scriptExists : Bool
  greenRewardAddrSet : Bool
  subprocess : SubprocessOutcome
deriving DecidableEq, Repr

/-- One step of the tx-hash scan of `send_plasma_reward` (plasma_payout.py
lines 85-94): the `Transaction hash:` pattern, or else a lowercase `hash:`
line containing a 66-character `0x` token.  Python `line.split()` splits on
whitespace; a single-space split models it. -/
def payoutTxLine (acc : Option String) (line : String) : Option String :=
  if 2 ≤ (line.splitOn "Transaction hash:").length then
    some (((line.splitOn "Transaction hash:").getLastD "").trim)
  else if 2 ≤ (line.toLower.splitOn "hash:").length ∧ 2 ≤ (line.splitOn "0x").length then
    match (line.splitOn " ").find? (fun part => startsWith0x part && part.length == 66) with
    | some p => some p
    | none => acc
  else acc

/-- The tx-hash scan over the script stdout (plasma_payout.py lines 85-94). -/
def parsePayoutTxHash (out : String) : Option String :=
  List.foldl payoutTxLine none (out.splitOn "\n")

/-- `plasma_payout.send_plasma_reward` (plasma_payout.py lines 15-122).  The
Boolean in the pair records whether the collaborator (the subprocess running
the payout script) was invoked.  The address validation is the source check
of lines 32-37: `0x` prefix and total length 42 only. -/
def send_plasma_reward (recipient_address : String) (env : PlasmaEnv) :
    PlasmaSendResult × Bool :=
  if ¬ startsWith0x recipient_address ∨ recipient_address.length ≠ 42 then
    ({ success := false,
       error := some ("Invalid recipient address: " ++ recipient_address) }, false)
  else if ¬ env.scriptExists then
    ({ success := false, error := some "Plasma payout script not found" }, false)
  else if ¬ env.greenRewardAddrSet then
    ({ success := false,
       error := some "GREEN_REWARD_CONTRACT_ADDRESS not set in .env file. Please deploy the contract first." }, false)
  else
    match env.subprocess with
    | .completed rc out err =>
      if rc = 0 then
        ({ success := true, transaction_hash := parsePayoutTxHash out }, true)
      else
        ({ success := false,
           error := some ("Plasma payout failed: " ++ (if err = "" then out else err)) }, true)
    | .timedOut =>
      ({ success := false, error := some "Plasma payout timed out after 2 minutes" }, true)
    | .raised msg =>
      ({ success := false, error := some ("Exception in plasma payout: " ++ msg) }, true)

/-- The module-level control state read and written by the dashboard
start/stop handlers (dashboard_server.py lines 36-40): the two flags, the
mirror of `current_data["agents_running"]`, and the swarm thread (`none`
when no thread was ever created, otherwise its `is_alive()` value). -/
structure AgentsSysState where
  agents_running : Bool
  dash_agents_running : Bool
  swarm_running : Bool
  swarm_thread : Option Bool
deriving DecidableEq, Repr

/-- `start_agents` (dashboard_server.py lines 847-878).  Spawning the swarm
thread makes `swarm_thread` alive; `swarm_running` itself is only set later
by the spawned `run_swarm_loop`, not by this handler.  The returned string
is the JSON `status` field. -/
def start_agents (s : AgentsSysState) : AgentsSysState × String :=
  let started_data : Prop := ¬ s.agents_running
  let s1 := if s.agents_running then s
            else { s with agents_running := true, dash_agents_running := true }
  let started_swarm : Prop := ¬ s.swarm_running ∨ s.swarm_thread = some false
  let s2 := if ¬ s.swarm_running ∨ s.swarm_thread = some false
            then { s1 with swarm_thread := some true } else s1
  if started_data ∨ started_swarm then (s2, "success") else (s2, "already_running")

/-- `stop_agents` (dashboard_server.py lines 881-911).  The returned string
is the JSON `status` field. -/
def stop_agents (s : AgentsSysState) : AgentsSysState × String :=
  let s1 := if s.agents_running
            then { s with agents_running := false, dash_agents_running := false } else s
  let s2 := if s.swarm_running then { s1 with swarm_running := false } else s1
  if s.agents_running ∨ s.swarm_running then (s2, "success") else (s2, "already_stopped")

/-- Scenario price data: XRP at 1.05 USD, both observations 10 seconds old
at `scenarioNow`. -/
def scenarioPrice : PriceData :=
  { btc_price := 60000, xrp_price := 21 / 20, btc_timestamp := 990, xrp_timestamp := 990 }

/-- The observation instant for the scenarios. -/
def scenarioNow : ℕ := 1000

/-- Price data whose XRP observation is 300 seconds old at time 1000:
stale beyond `ORACLE_TIMEOUT_SECONDS`, with a cheap XRP price. -/
def stalePrice : PriceData :=
  { btc_price := 60000, xrp_price := 21 / 20, btc_timestamp := 990, xrp_timestamp := 700 }

/-- The `carbon_audit` the dashboard builds for Scenario B: round id 0 means
no FDC proof, so the National-Grid fallback supplies an unverified intensity
(dashboard_server.py lines 168-227). -/
def scenarioBAudit : CarbonAudit :=
  { intensity := some 200, status := "Red", is_green := false, is_amber := false,
    is_red := true, is_fdc_verified := false, voting_round_id := none,
    attestation_valid := false }

/-- A 42-character address that starts with `0x` but is not hexadecimal. -/
def badHexAddr : String := "0xzzzzzzzzzzzzzzzzzzzzzzzzzzzzzzzzzzzzzzzz"

/-- A fully configured plasma environment whose script run succeeds. -/
def plasmaEnvOk : PlasmaEnv :=
  { scriptExists := true, greenRewardAddrSet := true, subprocess := .completed 0 "" "" }

/-- A control state in which both the data loop and the swarm loop run. -/
def runningState : AgentsSysState :=
  { agents_running := true, dash_agents_running := true, swarm_running := true,
    swarm_thread := some true }

/-- A control state in which everything is stopped. -/
def stoppedState : AgentsSysState :=
  { agents_running := false, dash_agents_running := false, swarm_running := false,
    swarm_thread := none }

/-- The shape `check_fdc_verification` gives a green-verified reading:
positive round id, positive intensity under 50. -/
lemma check_fdc_green (f : VeriDiFiCoreFeed) (r i : ℕ)
    (hr : f.latestRoundId = .ok r) (hrpos : 0 < r)
    (hi : f.getCarbonIntensity r = .ok i) (hipos : 0 < i) (hgreen : i < 50) :
    check_fdc_verification (some f) =
      some { verified := true, intensity := some i, voting_round_id := some r,
             is_low_carbon := true, status := some "GREEN_VERIFIED",
             message := "FDC proof verified." } := by
  have hrne : r ≠ 0 := hrpos.ne'
  have hine : i ≠ 0 := hipos.ne'
  simp [check_fdc_verification, hr, hi, hrne, hine, hgreen]

/-- The auditor output on a green-verified reading. -/
lemma auditor_green (f : VeriDiFiCoreFeed) (r i : ℕ)
    (hr : f.latestRoundId = .ok r) (hrpos : 0 < r)
    (hi : f.getCarbonIntensity r = .ok i) (hipos : 0 < i) (hgreen : i < 50) :
    environmental_auditor_agent (some f) =
      { carbon_audit :=
          { intensity := some i, status := "Green", is_green := true, is_amber := false,
            is_red := false, is_fdc_verified := true, voting_round_id := some r,
            attestation_valid := true },
        fdc_verification_status := "STATE_GREEN_VERIFIED", should_halt := false } := by
  have h := check_fdc_green f r i hr hrpos hi hipos hgreen
  have hgreen' : i < GREEN_THRESHOLD := by simpa [GREEN_THRESHOLD] using hgreen
  simp [environmental_auditor_agent, h, hgreen, hgreen']

/-- C2: For every attestation reading the verification gate classifies
deterministically, in order: round id 0 gives UNVERIFIED regardless of the
intensity; a positive round id with zero intensity gives UNVERIFIED; a
positive round id with positive intensity under `GREEN_THRESHOLD` gives
GREEN_VERIFIED; a positive round id with intensity at least
`GREEN_THRESHOLD` gives VERIFIED; a raised feed call gives ERROR. -/
theorem fdc_gate_classification (f : VeriDiFiCoreFeed) :
    (∀ r i, f.latestRoundId = .ok r → f.getCarbonIntensity r = .ok i →
      ((r = 0 → verificationGate (some f) = .UNVERIFIED) ∧
       (0 < r → i = 0 → verificationGate (some f) = .UNVERIFIED) ∧
       (0 < r → 0 < i → i < GREEN_THRESHOLD → verificationGate (some f) = .GREEN_VERIFIED) ∧
       (0 < r → GREEN_THRESHOLD ≤ i → verificationGate (some f) = .VERIFIED))) ∧
    (f.latestRoundId = .error () → verificationGate (some f) = .ERROR) := by
  constructor
  · intro r i hr hi
    refine ⟨?_, ?_, ?_, ?_⟩
    · intro h0
      subst h0
      simp [verificationGate, check_fdc_verification, hr]
    · intro hrpos hi0
      subst hi0
      simp [verificationGate, check_fdc_verification, hr, hi, hrpos.ne']
    · intro hrpos hipos hgreen
      have hgreen' : i < 50 := by simpa [GREEN_THRESHOLD] using hgreen
      simp [verificationGate, check_fdc_verification, hr, hi, hrpos.ne', hipos.ne', hgreen']
    · intro hrpos hhigh
      have hhigh' : ¬ i < 50 := by
        have : 50 ≤ i := by simpa [GREEN_THRESHOLD] using hhigh
        omega
      have hipos : i ≠ 0 := by omega
      simp [verificationGate, check_fdc_verification, hr, hi, hrpos.ne', hipos, hhigh']
  · intro herr
    simp [verificationGate, check_fdc_verification, herr]

/-- C2 witness: the gate evaluated at concrete readings for each case. -/
theorem fdc_gate_classification_witness :
    verificationGate (some (feedRound 0 5)) = .UNVERIFIED ∧
    verificationGate (some (feedRound 7 0)) = .UNVERIFIED ∧
    verificationGate (some (feedRound 7 30)) = .GREEN_VERIFIED ∧
    verificationGate (some (feedRound 7 160)) = .VERIFIED ∧
    verificationGate (some feedDown) = .ERROR :=
  ⟨((fdc_gate_classification (feedRound 0 5)).1 0 5 rfl rfl).1 rfl,
   ((fdc_gate_classification (feedRound 7 0)).1 7 0 rfl rfl).2.1 (by decide) rfl,
   ((fdc_gate_classification (feedRound 7 30)).1 7 30 rfl rfl).2.2.1
     (by decide) (by decide) (by decide),
   ((fdc_gate_classification (feedRound 7 160)).1 7 160 rfl rfl).2.2.2
     (by decide) (by decide),
   (fdc_gate_classification feedDown).2 rfl⟩

/-- C10: the decision node of the default VeridiFi swarm graph
(`manager_agent`, wired as the `manager` node) only ever decides EXECUTE_BUY
or WAIT, never HALT_ACTIVITY; consequently no halt verdict is reachable
through the default pipeline. -/
theorem manager_never_halts (p : Option ℚ) (fpv : Option Bool) :
    ((manager_agent p fpv).decision = "EXECUTE_BUY" ∨
     (manager_agent p fpv).decision = "WAIT") ∧
    (manager_agent p fpv).decision ≠ "HALT_ACTIVITY" ∧
    (∀ (priceData : Option PriceData) (now : ℕ) (core : Option VeriDiFiCoreFeed),
      (veridifi_decision priceData now core).decision ≠ "HALT_ACTIVITY") := by
  have key : ∀ (q : Option ℚ) (b : Option Bool),
      (manager_agent q b).decision = "EXECUTE_BUY" ∨ (manager_agent q b).decision = "WAIT" := by
    intro q b
    cases q with
    | none => right; rfl
    | some qq =>
      cases b with
      | none => right; rfl
      | some bb =>
        by_cases h : (decide (qq < XRP_TARGET_PRICE) && bb) = true
        · left; simp [manager_agent, h]
        · right; simp [manager_agent, h]
  refine ⟨key p fpv, ?_, ?_⟩
  · rcases key p fpv with h | h <;> rw [h] <;> decide
  · intro priceData now core
    rcases key (scout_agent priceData now) (some (auditor_agent core).fdc_proof_valid)
      with h | h <;>
      simp only [veridifi_decision] <;> rw [h] <;> decide

/-- C1 is refuted by the code: at Scenario E (fresh price 1.05, voting round
7, attested intensity 160, at least `AMBER_THRESHOLD`), the verification
gate yields VERIFIED, yet the decision is WAIT, not HALT_ACTIVITY: the
`STATE_GREEN_VERIFIED` gate of `treasury_manager_agent` swallows every
VERIFIED input before its Red-energy HALT gate can fire. -/
theorem scenario_e_high_carbon_waits :
    ((scenarioNow : ℤ) - scenarioPrice.xrp_timestamp = 10) ∧
    verificationGate (some (feedRound 7 160)) = .VERIFIED ∧
    AMBER_THRESHOLD ≤ 160 ∧
    (green_treasury_decision (some scenarioPrice) scenarioNow (some (feedRound 7 160))).decision
      = "WAIT" ∧
    (green_treasury_decision (some scenarioPrice) scenarioNow (some (feedRound 7 160))).decision
      ≠ "HALT_ACTIVITY" ∧
    containsSub
      (green_treasury_decision (some scenarioPrice) scenarioNow (some (feedRound 7 160))).reason
      "carbon is not low" = true := by
  refine ⟨by decide, by decide, by decide, by decide, by decide, by decide⟩

/-- C3: a failed price feed or a price reading older than
`ORACLE_TIMEOUT_SECONDS` makes the supervisor decision engine halt, with a
reason naming the oracle timeout or the data unavailability; and when the
stale-price condition and the green-and-cheap condition hold together, the
staleness rule is evaluated first, so HALT_ACTIVITY wins. -/
theorem stale_or_failed_price_halts :
    (∀ (ca : Option CarbonAudit) (fdc_status : Option String),
      (treasury_manager_agent none ca fdc_status).decision = "HALT_ACTIVITY" ∧
      containsSub (treasury_manager_agent none ca fdc_status).reason "unavailable" = true) ∧
    (∀ (ba xa : ℤ) (ca : Option CarbonAudit) (fdc_status : Option String),
      (treasury_manager_agent (some (.oracleTimeout ba xa)) ca fdc_status).decision
        = "HALT_ACTIVITY" ∧
      containsSub (treasury_manager_agent (some (.oracleTimeout ba xa)) ca fdc_status).reason
        "Oracle Timeout" = true) ∧
    (∀ (pd : PriceData) (now : ℕ) (f : VeriDiFiCoreFeed) (r i : ℕ),
      (now : ℤ) - pd.xrp_timestamp > ORACLE_TIMEOUT_SECONDS →
      f.latestRoundId = .ok r → 0 < r →
      f.getCarbonIntensity r = .ok i → 0 < i → i < GREEN_THRESHOLD →
      pd.xrp_price < XRP_TARGET_PRICE →
      verificationGate (some f) = .GREEN_VERIFIED ∧
      (green_treasury_decision (some pd) now (some f)).decision = "HALT_ACTIVITY" ∧
      containsSub (green_treasury_decision (some pd) now (some f)).reason
        "Oracle Timeout" = true) := by
  refine ⟨?_, ?_, ?_⟩
  · intro ca fdc_status
    cases ca with
    | none =>
      refine ⟨rfl, ?_⟩
      have h : (treasury_manager_agent none none fdc_status).reason
          = "Missing required data: Market Report or Carbon Audit unavailable" := rfl
      rw [h]
      decide
    | some a =>
      refine ⟨rfl, ?_⟩
      have h : (treasury_manager_agent none (some a) fdc_status).reason
          = "Missing required data: Market Report or Carbon Audit unavailable" := rfl
      rw [h]
      decide
  · intro ba xa ca fdc_status
    refine ⟨rfl, ?_⟩
    have h : (treasury_manager_agent (some (.oracleTimeout ba xa)) ca fdc_status).reason
        = "Oracle Timeout: FTSO data is stale (>3 minutes). Trading halted for safety." := rfl
    rw [h]
    decide
  · intro pd now f r i hstale hr hrpos hi hipos hgreen hcheap
    have hgreen' : i < 50 := by simpa [GREEN_THRESHOLD] using hgreen
    have ha := auditor_green f r i hr hrpos hi hipos hgreen'
    have hc := check_fdc_green f r i hr hrpos hi hipos hgreen'
    refine ⟨by simp [verificationGate, hc], ?_, ?_⟩
    · simp [green_treasury_decision, ha, should_route_to_error_halt,
        oracle_scout_agent, hstale, treasury_manager_agent, isOracleTimeoutReport]
    · simp [green_treasury_decision, ha, should_route_to_error_halt,
        oracle_scout_agent, hstale, treasury_manager_agent, isOracleTimeoutReport]
      decide

/-- C3 witness: a price 300 seconds old together with a green round-7
reading and a cheap price still halts with the oracle-timeout reason. -/
theorem stale_or_failed_price_halts_witness :
    (treasury_manager_agent none none none).decision = "HALT_ACTIVITY" ∧
    verificationGate (some (feedRound 7 30)) = .GREEN_VERIFIED ∧
    (green_treasury_decision (some stalePrice) 1000 (some (feedRound 7 30))).decision
      = "HALT_ACTIVITY" ∧
    containsSub (green_treasury_decision (some stalePrice) 1000 (some (feedRound 7 30))).reason
      "Oracle Timeout" = true :=
  ⟨(stale_or_failed_price_halts.1 none none).1,
   (stale_or_failed_price_halts.2.2 stalePrice 1000 (feedRound 7 30) 7 30
     (by decide) rfl (by decide) rfl (by decide) (by decide)
     (by norm_num [stalePrice, XRP_TARGET_PRICE])).1,
   (stale_or_failed_price_halts.2.2 stalePrice 1000 (feedRound 7 30) 7 30
     (by decide) rfl (by decide) rfl (by decide) (by decide)
     (by norm_num [stalePrice, XRP_TARGET_PRICE])).2.1,
   (stale_or_failed_price_halts.2.2 stalePrice 1000 (feedRound 7 30) 7 30
     (by decide) rfl (by decide) rfl (by decide) (by decide)
     (by norm_num [stalePrice, XRP_TARGET_PRICE])).2.2⟩

/-- C5: a fresh price feed, a GREEN_VERIFIED attestation, and a price
strictly below `XRP_TARGET_PRICE` produce the EXECUTE_BUY verdict, both in
the legacy supervisor pipeline and in the default graph decision node. -/
theorem green_verified_cheap_buys (pd : PriceData) (now : ℕ) (f : VeriDiFiCoreFeed) (r i : ℕ)
    (hb : (now : ℤ) - pd.btc_timestamp ≤ ORACLE_TIMEOUT_SECONDS)
    (hx : (now : ℤ) - pd.xrp_timestamp ≤ ORACLE_TIMEOUT_SECONDS)
    (hr : f.latestRoundId = .ok r) (hrpos : 0 < r)
    (hi : f.getCarbonIntensity r = .ok i) (hipos : 0 < i) (hgreen : i < GREEN_THRESHOLD)
    (hcheap : pd.xrp_price < XRP_TARGET_PRICE) :
    verificationGate (some f) = .GREEN_VERIFIED ∧
    (green_treasury_decision (some pd) now (some f)).decision = "EXECUTE_BUY" ∧
    (∀ q : ℚ, q < XRP_TARGET_PRICE → (manager_agent (some q) (some true)).decision
      = "EXECUTE_BUY") := by
  have hgreen' : i < 50 := by simpa [GREEN_THRESHOLD] using hgreen
  have ha := auditor_green f r i hr hrpos hi hipos hgreen'
  have hc := check_fdc_green f r i hr hrpos hi hipos hgreen'
  have hfresh : ¬ ((now : ℤ) - pd.btc_timestamp > ORACLE_TIMEOUT_SECONDS ∨
      (now : ℤ) - pd.xrp_timestamp > ORACLE_TIMEOUT_SECONDS) := by
    push_neg
    exact ⟨hb, hx⟩
  refine ⟨by simp [verificationGate, hc], ?_, ?_⟩
  · simp [green_treasury_decision, ha, should_route_to_error_halt,
      oracle_scout_agent, hfresh, treasury_manager_agent, isOracleTimeoutReport,
      marketXrpUsd, hcheap]
  · intro q hq
    simp [manager_agent, decide_eq_true hq]

/-- C5 witness, Scenario A: price 1.05 at age 10s with round 7 and intensity
30 yields EXECUTE_BUY. -/
theorem green_verified_cheap_buys_witness :
    verificationGate (some (feedRound 7 30)) = .GREEN_VERIFIED ∧
    (green_treasury_decision (some scenarioPrice) scenarioNow (some (feedRound 7 30))).decision
      = "EXECUTE_BUY" :=
  ⟨(green_verified_cheap_buys scenarioPrice scenarioNow (feedRound 7 30) 7 30
     (by decide) (by decide) rfl (by decide) rfl (by decide) (by decide)
     (by norm_num [scenarioPrice, XRP_TARGET_PRICE])).1,
   (green_verified_cheap_buys scenarioPrice scenarioNow (feedRound 7 30) 7 30
     (by decide) (by decide) rfl (by decide) rfl (by decide) (by decide)
     (by norm_num [scenarioPrice, XRP_TARGET_PRICE])).2.1⟩

/-- C6: with a fresh, valid market report but an attestation that is not
FDC-verified (the ERROR and UNVERIFIED statuses), the supervisor decision
engine waits, with a reason naming the unverified data it refuses to act
on. -/
theorem unverified_fresh_waits (b x : ℚ) (ba xa : ℤ) (ca : CarbonAudit)
    (fdc_status : Option String) (hunv : ca.is_fdc_verified = false) :
    (treasury_manager_agent (some (.valid b x ba xa)) (some ca) fdc_status).decision
      = "WAIT" ∧
    containsSub (treasury_manager_agent (some (.valid b x ba xa)) (some ca) fdc_status).reason
      "unverified" = true := by
  constructor
  · simp [treasury_manager_agent, isOracleTimeoutReport, hunv]
  · simp [treasury_manager_agent, isOracleTimeoutReport, hunv]
    decide

/-- C6 witness, Scenario B: a fresh 1.05 price with a round-0 (hence
unverified) attestation waits, and the reason mentions unverified data. -/
theorem unverified_fresh_waits_witness :
    (treasury_manager_agent (some (.valid 60000 (21 / 20) 10 10)) (some scenarioBAudit)
      (some "UNVERIFIED")).decision = "WAIT" ∧
    containsSub (treasury_manager_agent (some (.valid 60000 (21 / 20) 10 10))
      (some scenarioBAudit) (some "UNVERIFIED")).reason "unverified" = true :=
  ⟨(unverified_fresh_waits 60000 (21 / 20) 10 10 scenarioBAudit (some "UNVERIFIED") rfl).1,
   (unverified_fresh_waits 60000 (21 / 20) 10 10 scenarioBAudit (some "UNVERIFIED") rfl).2⟩

/-- C4 is refuted by the code: the settlement node wired into the default
VeridiFi graph (`settlement_agent`) returns `executed = false` with status
FAILED on an underlying timeout, with no mock fallback marker — not an
`executed = true` synthetic result. -/
theorem settlement_timeout_not_fail_open :
    (settlement_agent "0x742d35Cc6634C0532925a3b844Bc9e7595f0bEb" .timedOut).executed
      = false ∧
    (settlement_agent "0x742d35Cc6634C0532925a3b844Bc9e7595f0bEb" .timedOut).status
      = some "FAILED" ∧
    (settlement_agent "0x742d35Cc6634C0532925a3b844Bc9e7595f0bEb" .timedOut).payment_type
      = none :=
  ⟨rfl, rfl, rfl⟩

/-- C4 amended: both dispatchers return a `SettlementResult` on every
outcome instead of raising; the legacy EXECUTE_BUY dispatcher
(`settlement_agent_old`) falls back, on every underlying failure (module
missing, unconfigured setup, failed send, exception), to the
`executed = true` mock result marked by its `payment_type` and `note`; the
default graph settlement node (`settlement_agent`) instead answers every
failure (nonzero exit, timeout, exception) with `executed = false` and
status FAILED. -/
theorem settlement_dispatcher_results (recipient m : String) (send : SendInvocation)
    (r : PlasmaSendResult) (outcome : SubprocessOutcome) (hfail : r.success = false) :
    (settlement_agent_old "EXECUTE_BUY" false true recipient send
      = mock_plasma_payment recipient) ∧
    (settlement_agent_old "EXECUTE_BUY" true false recipient send
      = mock_plasma_payment recipient) ∧
    (settlement_agent_old "EXECUTE_BUY" true true recipient (.result r)
      = mock_plasma_payment recipient) ∧
    (settlement_agent_old "EXECUTE_BUY" true true recipient (.raised m)
      = mock_plasma_payment recipient) ∧
    ((mock_plasma_payment recipient).executed = true ∧
     (mock_plasma_payment recipient).payment_type = some "Green Reward (Mock)" ∧
     (mock_plasma_payment recipient).note
       = some "Mock payment - Configure Plasma for real payouts") ∧
    ((settlement_agent recipient outcome).status = some "COMPLETED" ∨
     (settlement_agent recipient outcome).status = some "FAILED") ∧
    ((settlement_agent recipient .timedOut).executed = false ∧
     (settlement_agent recipient (.raised m)).executed = false) := by
  refine ⟨?_, ?_, ?_, ?_, ⟨rfl, rfl, rfl⟩, ?_, rfl, rfl⟩
  · simp [settlement_agent_old]
  · simp [settlement_agent_old]
  · simp [settlement_agent_old, hfail]
  · simp [settlement_agent_old]
  · cases outcome with
    | completed rc out err =>
      by_cases hrc : rc = 0
      · left; simp [settlement_agent, hrc]
      · right; simp [settlement_agent, hrc]
    | timedOut => right; rfl
    | raised msg => right; rfl

/-- C4 amendment witness: a failed send falls back to the mock result and a
timed-out default-graph settlement reports `executed = false`. -/
theorem settlement_dispatcher_results_witness :
    settlement_agent_old "EXECUTE_BUY" true true "0xdemo"
      (.result { success := false }) = mock_plasma_payment "0xdemo" ∧
    (mock_plasma_payment "0xdemo").executed = true ∧
    (settlement_agent "0xdemo" .timedOut).executed = false :=
  ⟨(settlement_dispatcher_results "0xdemo" "boom" (.result { success := false })
      { success := false } .timedOut rfl).2.2.1,
   (settlement_dispatcher_results "0xdemo" "boom" (.result { success := false })
      { success := false } .timedOut rfl).2.2.2.2.1.1,
   (settlement_dispatcher_results "0xdemo" "boom" (.result { success := false })
      { success := false } .timedOut rfl).2.2.2.2.2.2.1⟩

/-- C7 is refuted by the code: a 42-character recipient that starts with
`0x` but contains non-hexadecimal characters fails the documented address
regular expression, yet the payout path (`send_plasma_reward`) does not
reject it — in a configured environment the settlement collaborator is
invoked and the call reports success. -/
theorem payout_skips_hex_validation :
    matchesEthAddressRe badHexAddr = false ∧
    (send_plasma_reward badHexAddr plasmaEnvOk).2 = true ∧
    (send_plasma_reward badHexAddr plasmaEnvOk).1.success = true ∧
    (send_plasma_reward badHexAddr plasmaEnvOk).1.error = none := by
  refine ⟨by decide, rfl, rfl, rfl⟩

/-- C7 amended: the payout path checks only the `0x` prefix and total length
42; a recipient failing that weaker check is rejected with a validation
error before the collaborator is invoked, while the full
`0x`-plus-40-hex-characters regular expression is enforced only by the
wallet-saving endpoint (`save_user_wallet`). -/
theorem payout_validation_scope (recipient w : String) (env : PlasmaEnv)
    (hbad : ¬ startsWith0x recipient ∨ recipient.length ≠ 42)
    (hw1 : pyStrip w ≠ "") (hw2 : matchesEthAddressRe (pyStrip w) = false) :
    ((send_plasma_reward recipient env).1.success = false ∧
     (send_plasma_reward recipient env).2 = false ∧
     (send_plasma_reward recipient env).1.error
       = some ("Invalid recipient address: " ++ recipient)) ∧
    save_user_wallet w = .badRequest "Invalid Ethereum address format" := by
  constructor
  · simp only [send_plasma_reward]
    rw [if_pos hbad]
    exact ⟨rfl, rfl, rfl⟩
  · simp [save_user_wallet, hw1, hw2]

/-- C7 amendment witness: a short recipient is rejected by the payout path
before the collaborator runs, and the non-hex 42-character address is
rejected by the wallet-saving endpoint. -/
theorem payout_validation_scope_witness :
    (send_plasma_reward "0xshort" plasmaEnvOk).1.success = false ∧
    (send_plasma_reward "0xshort" plasmaEnvOk).2 = false ∧
    save_user_wallet badHexAddr = .badRequest "Invalid Ethereum address format" :=
  ⟨(payout_validation_scope "0xshort" badHexAddr plasmaEnvOk
      (Or.inr (by decide)) (by decide) (by decide)).1.1,
   (payout_validation_scope "0xshort" badHexAddr plasmaEnvOk
      (Or.inr (by decide)) (by decide) (by decide)).1.2.1,
   (payout_validation_scope "0xshort" badHexAddr plasmaEnvOk
      (Or.inr (by decide)) (by decide) (by decide)).2⟩

/-- C8: the two embedded low-carbon classifications disagree on every
intensity in [GREEN_THRESHOLD, GREEN_ENERGY_THRESHOLD): the FDC verification
path (`check_fdc_verification`, fixed threshold 50) reports not low-carbon,
while the carbon-intensity reader (`get_carbon_intensity`, configurable
threshold defaulting to 100) reports green. -/
theorem green_threshold_mismatch (i : ℕ)
    (h50 : GREEN_THRESHOLD ≤ i) (h100 : i < GREEN_ENERGY_THRESHOLD) :
    ((check_fdc_verification (some (feedRound 7 i))).map FdcVerification.is_low_carbon
      = some false) ∧
    ((get_carbon_intensity GREEN_ENERGY_THRESHOLD (some (feedRound 7 i))).map
      CarbonIntensityInfo.is_green = some true) := by
  have h50' : 50 ≤ i := by simpa [GREEN_THRESHOLD] using h50
  have h100' : i < 100 := by simpa [GREEN_ENERGY_THRESHOLD] using h100
  have hipos : i ≠ 0 := by omega
  have hnotlow : ¬ i < 50 := by omega
  constructor
  · simp [check_fdc_verification, feedRound, hipos, hnotlow]
  · simp [get_carbon_intensity, feedRound, GREEN_ENERGY_THRESHOLD, hipos, h100',
      Nat.pos_of_ne_zero hipos]

/-- C8 witness: intensity 75 is not low-carbon for the FDC path but green
for the carbon-intensity reader. -/
theorem green_threshold_mismatch_witness :
    ((check_fdc_verification (some (feedRound 7 75))).map FdcVerification.is_low_carbon
      = some false) ∧
    ((get_carbon_intensity GREEN_ENERGY_THRESHOLD (some (feedRound 7 75))).map
      CarbonIntensityInfo.is_green = some true) :=
  ⟨(green_threshold_mismatch 75 (by decide) (by decide)).1,
   (green_threshold_mismatch 75 (by decide) (by decide)).2⟩

/-- C9: the start and stop controls are idempotent on the running flag:
starting an already fully running system changes nothing and reports
`already_running`; stopping an already stopped system changes nothing and
reports `already_stopped`; and start-after-start (likewise stop-after-stop)
leaves the running flag exactly where a single start (stop) put it. -/
theorem start_stop_idempotent_controls (s t : AgentsSysState)
    (hs1 : s.agents_running = true) (hs2 : s.swarm_running = true)
    (hs3 : s.swarm_thread = none ∨ s.swarm_thread = some true)
    (ht1 : t.agents_running = false) (ht2 : t.swarm_running = false) :
    start_agents s = (s, "already_running") ∧
    stop_agents t = (t, "already_stopped") ∧
    (∀ u : AgentsSysState,
      (start_agents (start_agents u).1).1.agents_running
        = (start_agents u).1.agents_running ∧
      (stop_agents (stop_agents u).1).1.agents_running
        = (stop_agents u).1.agents_running) := by
  have hth : s.swarm_thread ≠ some false := by
    rcases hs3 with h | h <;> simp [h]
  have hstart : ∀ v : AgentsSysState, (start_agents v).1.agents_running = true := by
    intro v
    rcases v with ⟨a, d, sw, th⟩
    cases a <;> by_cases hw : (sw = false ∨ th = some false) <;> simp [start_agents, hw]
  have hstop : ∀ v : AgentsSysState, (stop_agents v).1.agents_running = false := by
    intro v
    rcases v with ⟨a, d, sw, th⟩
    cases a <;> cases sw <;> simp [stop_agents]
  refine ⟨?_, ?_, ?_⟩
  · simp [start_agents, hs1, hs2, hth]
  · simp [stop_agents, ht1, ht2]
  · intro u
    exact ⟨(hstart _).trans (hstart _).symm, (hstop _).trans (hstop _).symm⟩

/-- C9 witness: the concrete fully-running and fully-stopped states. -/
theorem start_stop_idempotent_controls_witness :
    start_agents runningState = (runningState, "already_running") ∧
    stop_agents stoppedState = (stoppedState, "already_stopped") :=
  ⟨(start_stop_idempotent_controls runningState stoppedState rfl rfl
      (Or.inr rfl) rfl rfl).1,
   (start_stop_idempotent_controls runningState stoppedState rfl rfl
      (Or.inr rfl) rfl rfl).2.1⟩

end VeridiFi
